import Mathlib

/-!
Shallow embedding of the frame-lifecycle core of VkGameProjectOne
(src/core/VulkanEngine.cpp, src/app/Application.cpp, src/core/TerrainLoader.cpp)
together with theorems settling the specification claims about it.

External Vulkan / SDL / GLM / stb_image calls are modelled by explicit
environment records holding the values those calls return; the control flow
and arithmetic of the repository functions themselves are translated
directly from the C++ source.
-/

set_option maxHeartbeats 1000000

namespace VkGameProjectOne

/-- VkExtent2D: a pair of uint32 pixel dimensions. -/
structure Extent2D where
  width : Nat
  height : Nat
deriving DecidableEq, Repr

/-- Numeric value of std::numeric_limits<uint32_t>::max(), the Vulkan sentinel
for an undefined surface currentExtent (VulkanEngine.cpp line 629). -/
def UINT32_MAX : Nat := 4294967295

/-- Subset of VkSurfaceCapabilitiesKHR read by createSwapChain and
chooseSwapExtent (all fields are uint32 values). -/
structure VkSurfaceCapabilitiesKHR where
  minImageCount : Nat
  maxImageCount : Nat
  currentExtent : Extent2D
  minImageExtent : Extent2D
  maxImageExtent : Extent2D
deriving DecidableEq, Repr

/-- std::clamp(v, lo, hi) on uint32 values: (v < lo) ? lo : ((hi < v) ? hi : v),
as invoked by chooseSwapExtent (VulkanEngine.cpp lines 646-649). -/
def cppClamp (v lo hi : Nat) : Nat :=
  if v < lo then lo else if hi < v then hi else v

/-- VulkanEngine::chooseSwapExtent (VulkanEngine.cpp lines 627-655).
The drawable argument models the value reported by
SDL_Vulkan_GetDrawableSize(window, ...). -/
def chooseSwapExtent (capabilities : VkSurfaceCapabilitiesKHR) (drawable : Extent2D) : Extent2D :=
  if capabilities.currentExtent.width ≠ UINT32_MAX then
    capabilities.currentExtent
  else
    { width := cppClamp drawable.width capabilities.minImageExtent.width
        capabilities.maxImageExtent.width,
      height := cppClamp drawable.height capabilities.minImageExtent.height
        capabilities.maxImageExtent.height }

/-- Image-count request computed by VulkanEngine::createSwapChain
(VulkanEngine.cpp lines 667-673): uint32_t imageCount = minImageCount + 1
(uint32 addition, hence the mod 2^32), then clamped down to maxImageCount
when that bound is nonzero and exceeded. -/
def swapImageCountRequest (capabilities : VkSurfaceCapabilitiesKHR) : Nat :=
  let imageCount := (capabilities.minImageCount + 1) % 4294967296
  if 0 < capabilities.maxImageCount ∧ capabilities.maxImageCount < imageCount then
    capabilities.maxImageCount
  else
    imageCount

/-- VkSurfaceFormatKHR: format and color space, by their Vulkan numeric codes. -/
structure VkSurfaceFormatKHR where
  format : Nat
  colorSpace : Nat
deriving DecidableEq, Repr

/-- Vulkan numeric code of VK_FORMAT_B8G8R8A8_SRGB. -/
def VK_FORMAT_B8G8R8A8_SRGB : Nat := 50

/-- Vulkan numeric code of VK_COLOR_SPACE_SRGB_NONLINEAR_KHR. -/
def VK_COLOR_SPACE_SRGB_NONLINEAR_KHR : Nat := 0

/-- VulkanEngine::chooseSwapSurfaceFormat (VulkanEngine.cpp lines 599-612):
first format equal to (B8G8R8A8_SRGB, SRGB_NONLINEAR), else the first
reported format. -/
def chooseSwapSurfaceFormat (availableFormats : List VkSurfaceFormatKHR) : VkSurfaceFormatKHR :=
  match availableFormats.find? (fun f =>
      f.format == VK_FORMAT_B8G8R8A8_SRGB &&
      f.colorSpace == VK_COLOR_SPACE_SRGB_NONLINEAR_KHR) with
  | some f => f
  | none => availableFormats.headD { format := 0, colorSpace := 0 }

/-- VkPresentModeKHR values relevant to chooseSwapPresentMode. -/
inductive VkPresentModeKHR where
  | immediate
  | mailbox
  | fifo
  | fifoRelaxed
deriving DecidableEq, Repr

/-- VulkanEngine::chooseSwapPresentMode (VulkanEngine.cpp lines 614-625):
MAILBOX if reported, else FIFO. -/
def chooseSwapPresentMode (availablePresentModes : List VkPresentModeKHR) : VkPresentModeKHR :=
  if VkPresentModeKHR.mailbox ∈ availablePresentModes then VkPresentModeKHR.mailbox
  else VkPresentModeKHR.fifo

/-- MAX_FRAMES_IN_FLIGHT (VulkanEngine.cpp line 25). -/
def MAX_FRAMES_IN_FLIGHT : Nat := 2

/-- Result values of the Vulkan calls inspected by drawFrame. All
non-success codes other than SUBOPTIMAL_KHR and ERROR_OUT_OF_DATE_KHR are
collapsed into otherError together with their integer code. -/
inductive VkResult where
  | success
  | suboptimalKHR
  | errorOutOfDateKHR
  | otherError (code : Int)
deriving DecidableEq, Repr

/-- Part of the engine state read and written by VulkanEngine::drawFrame.
swapchainGeneration counts completed recreateSwapChain calls so that a
rebuild is observable in the model. -/
structure FrameState where
  currentFrame : Nat
  framebufferResized : Bool
  swapchainGeneration : Nat
deriving DecidableEq, Repr

/-- Results returned by the external Vulkan calls during one drawFrame
execution: vkAcquireNextImageKHR (result and image index), vkQueueSubmit
and vkQueuePresentKHR. -/
structure DrawEnv where
  acquireResult : VkResult
  acquireImageIndex : Nat
  submitResult : VkResult
  presentResult : VkResult
deriving DecidableEq, Repr

/-- Observable events emitted by one drawFrame execution, in program order. -/
inductive FrameEvent where
  | waitFence (slot : Nat)
  | acquireImage (slot : Nat) (result : VkResult)
  | recreateSwapchain
  | resetFence (slot : Nat)
  | recordCommands (slot : Nat) (imageIndex : Nat)
  | submitQueue (slot : Nat) (result : VkResult)
  | presentImage (imageIndex : Nat) (result : VkResult)
deriving DecidableEq, Repr

/-- How one drawFrame call terminates: normal return, throw of the
recoverable SwapChainOutOfDateError, or throw of a fatal std::runtime_error
(from the acquire failure branch, VK_CHECK on submit, or the present
failure branch). -/
inductive DrawOutcome where
  | ok
  | swapChainOutOfDate
  | fatal
deriving DecidableEq, Repr

/-- VulkanEngine::drawFrame (VulkanEngine.cpp lines 1445-1530): wait on the
slot fence; acquire (OUT_OF_DATE recreates and throws the recoverable error,
any other non-success non-suboptimal result throws fatally); reset the slot
fence; re-record; submit (VK_CHECK throws fatally on failure); present
(OUT_OF_DATE / SUBOPTIMAL / pending resize flag recreate and continue, any
other failure throws fatally); finally advance currentFrame mod
MAX_FRAMES_IN_FLIGHT. Returns the outcome, the post state and the event
trace. -/
def drawFrame (s : FrameState) (env : DrawEnv) : DrawOutcome × FrameState × List FrameEvent :=
  let cf := s.currentFrame
  if env.acquireResult = VkResult.errorOutOfDateKHR then
    (DrawOutcome.swapChainOutOfDate,
     { s with swapchainGeneration := s.swapchainGeneration + 1 },
     [FrameEvent.waitFence cf, FrameEvent.acquireImage cf env.acquireResult,
      FrameEvent.recreateSwapchain])
  else if env.acquireResult ≠ VkResult.success ∧ env.acquireResult ≠ VkResult.suboptimalKHR then
    (DrawOutcome.fatal, s,
     [FrameEvent.waitFence cf, FrameEvent.acquireImage cf env.acquireResult])
  else if env.submitResult ≠ VkResult.success then
    (DrawOutcome.fatal, s,
     [FrameEvent.waitFence cf, FrameEvent.acquireImage cf env.acquireResult,
      FrameEvent.resetFence cf, FrameEvent.recordCommands cf env.acquireImageIndex,
      FrameEvent.submitQueue cf env.submitResult])
  else if env.presentResult = VkResult.errorOutOfDateKHR ∨
          env.presentResult = VkResult.suboptimalKHR ∨ s.framebufferResized = true then
    (DrawOutcome.ok,
     { currentFrame := (cf + 1) % MAX_FRAMES_IN_FLIGHT,
       framebufferResized := false,
       swapchainGeneration := s.swapchainGeneration + 1 },
     [FrameEvent.waitFence cf, FrameEvent.acquireImage cf env.acquireResult,
      FrameEvent.resetFence cf, FrameEvent.recordCommands cf env.acquireImageIndex,
      FrameEvent.submitQueue cf env.submitResult,
      FrameEvent.presentImage env.acquireImageIndex env.presentResult,
      FrameEvent.recreateSwapchain])
  else if env.presentResult ≠ VkResult.success then
    (DrawOutcome.fatal, s,
     [FrameEvent.waitFence cf, FrameEvent.acquireImage cf env.acquireResult,
      FrameEvent.resetFence cf, FrameEvent.recordCommands cf env.acquireImageIndex,
      FrameEvent.submitQueue cf env.submitResult,
      FrameEvent.presentImage env.acquireImageIndex env.presentResult])
  else
    (DrawOutcome.ok,
     { s with currentFrame := (cf + 1) % MAX_FRAMES_IN_FLIGHT },
     [FrameEvent.waitFence cf, FrameEvent.acquireImage cf env.acquireResult,
      FrameEvent.resetFence cf, FrameEvent.recordCommands cf env.acquireImageIndex,
      FrameEvent.submitQueue cf env.submitResult,
      FrameEvent.presentImage env.acquireImageIndex env.presentResult])

/-- Outcome component of drawFrame. -/
def drawOutcome (s : FrameState) (env : DrawEnv) : DrawOutcome :=
  (drawFrame s env).1

/-- Post-state component of drawFrame. -/
def drawNextState (s : FrameState) (env : DrawEnv) : FrameState :=
  (drawFrame s env).2.1

/-- Event-trace component of drawFrame. -/
def drawTrace (s : FrameState) (env : DrawEnv) : List FrameEvent :=
  (drawFrame s env).2.2

/-- Application::mainLoop (Application.cpp lines 45-52): the quit flag after
one drawFrame call. A caught SwapChainOutOfDateError only logs a warning;
any other std::exception sets quit = true; a normal return leaves quit
unchanged. -/
def mainLoopQuitAfter (quitBefore : Bool) (outcome : DrawOutcome) : Bool :=
  match outcome with
  | DrawOutcome.fatal => true
  | _ => quitBefore

/-- Values returned by the surface / window queries performed during
swapchain (re)creation: querySwapChainSupport, SDL_Vulkan_GetDrawableSize,
and the driver's actual retrieved image count
(vkGetSwapchainImagesKHR). Fixed for the duration of a rebuild with no
intervening frames. -/
structure VulkanSurfaceEnv where
  capabilities : VkSurfaceCapabilitiesKHR
  formats : List VkSurfaceFormatKHR
  presentModes : List VkPresentModeKHR
  drawableSize : Extent2D
  actualImageCount : Nat
  graphicsFamily : Nat
  presentFamily : Nat
deriving DecidableEq, Repr

/-- Observable configuration of the swapchain and its dependent resources
(swapchain parameters, image views, framebuffers, render pass / pipeline
rebuilt alongside them, per-frame uniform buffers with their mapped
pointers, descriptor pool and sets). -/
structure SwapchainConfig where
  surfaceFormat : VkSurfaceFormatKHR
  presentMode : VkPresentModeKHR
  extent : Extent2D
  requestedImageCount : Nat
  sharingConcurrent : Bool
  numImageViews : Nat
  numFramebuffers : Nat
  numUniformBuffers : Nat
  uniformBuffersMappedFlags : List Bool
  numDescriptorSets : Nat
deriving DecidableEq, Repr

/-- Configuration produced by the creation chain createSwapChain,
createImageViews, createRenderPass, createGraphicsPipeline,
createFramebuffers, createUniformBuffers, createDescriptorPool,
createDescriptorSets (VulkanEngine.cpp lines 1602-1609): every field is
computed afresh from the surface environment, none is taken from the
previous configuration. -/
def buildSwapchainConfig (env : VulkanSurfaceEnv) : SwapchainConfig :=
  { surfaceFormat := chooseSwapSurfaceFormat env.formats,
    presentMode := chooseSwapPresentMode env.presentModes,
    extent := chooseSwapExtent env.capabilities env.drawableSize,
    requestedImageCount := swapImageCountRequest env.capabilities,
    sharingConcurrent := env.graphicsFamily != env.presentFamily,
    numImageViews := env.actualImageCount,
    numFramebuffers := env.actualImageCount,
    numUniformBuffers := MAX_FRAMES_IN_FLIGHT,
    uniformBuffersMappedFlags := List.replicate MAX_FRAMES_IN_FLIGHT true,
    numDescriptorSets := MAX_FRAMES_IN_FLIGHT }

/-- VulkanEngine::cleanupSwapChain (VulkanEngine.cpp lines 1535-1576):
destroys framebuffers, pipeline, pipeline layout, render pass, image views,
swapchain, uniform buffers (clearing mapped pointers) and the descriptor
pool, leaving no swapchain configuration alive. -/
def cleanupSwapChain (_old : Option SwapchainConfig) : Option SwapchainConfig :=
  none

/-- VulkanEngine::recreateSwapChain (VulkanEngine.cpp lines 1578-1614).
While the drawable size is zero the function loops waiting for events;
under a fixed surface environment that loop never exits, modelled by the
outer Option being none. Otherwise it waits for the device to idle, runs
cleanupSwapChain, and rebuilds everything from fresh surface queries. -/
def recreateSwapChain (env : VulkanSurfaceEnv) (s : Option SwapchainConfig) :
    Option (Option SwapchainConfig) :=
  if env.drawableSize.width = 0 ∨ env.drawableSize.height = 0 then
    none
  else
    let cleaned := cleanupSwapChain s
    some ((fun _ => some (buildSwapchainConfig env)) cleaned)

/-- glm vec3 over the reals (the idealisation of float used throughout). -/
structure Vec3R where
  x : ℝ
  y : ℝ
  z : ℝ

/-- glm vec2 over the reals. -/
structure Vec2R where
  x : ℝ
  y : ℝ

/-- glm vec4 over the reals. -/
structure Vec4R where
  x : ℝ
  y : ℝ
  z : ℝ
  w : ℝ

/-- glm mat4 over the reals, stored as glm stores it: four columns, entry
m[c][r] being component r of column c. -/
structure Mat4R where
  c0 : Vec4R
  c1 : Vec4R
  c2 : Vec4R
  c3 : Vec4R

/-- Scalar multiple of a vec4 column. -/
noncomputable def Vec4R.scale (a : ℝ) (v : Vec4R) : Vec4R :=
  ⟨a * v.x, a * v.y, a * v.z, a * v.w⟩

/-- Componentwise sum of two vec4 columns. -/
noncomputable def Vec4R.add (u v : Vec4R) : Vec4R :=
  ⟨u.x + v.x, u.y + v.y, u.z + v.z, u.w + v.w⟩

/-- glm mat4(1.0f): the identity matrix. -/
noncomputable def identityMat4 : Mat4R :=
  { c0 := ⟨1, 0, 0, 0⟩, c1 := ⟨0, 1, 0, 0⟩, c2 := ⟨0, 0, 1, 0⟩, c3 := ⟨0, 0, 0, 1⟩ }

/-- glm::radians: degrees * pi / 180. -/
noncomputable def glmRadians (degrees : ℝ) : ℝ :=
  degrees * (Real.pi / 180)

/-- glm dot product on vec3. -/
noncomputable def dot3 (u v : Vec3R) : ℝ :=
  u.x * v.x + u.y * v.y + u.z * v.z

/-- glm cross product on vec3. -/
noncomputable def cross3 (u v : Vec3R) : Vec3R :=
  ⟨u.y * v.z - u.z * v.y, u.z * v.x - u.x * v.z, u.x * v.y - u.y * v.x⟩

/-- glm::normalize on vec3: v divided by its euclidean length. -/
noncomputable def glmNormalize3 (v : Vec3R) : Vec3R :=
  let len := Real.sqrt (dot3 v v)
  ⟨v.x / len, v.y / len, v.z / len⟩

/-- glm::rotate(m, angle, v) (matrix_transform.inl): Rodrigues rotation
matrix about the normalized axis, composed onto m column by column. -/
noncomputable def glmRotate (m : Mat4R) (angle : ℝ) (v : Vec3R) : Mat4R :=
  let c := Real.cos angle
  let s := Real.sin angle
  let axis := glmNormalize3 v
  let tx := (1 - c) * axis.x
  let ty := (1 - c) * axis.y
  let tz := (1 - c) * axis.z
  let r00 := c + tx * axis.x
  let r01 := tx * axis.y + s * axis.z
  let r02 := tx * axis.z - s * axis.y
  let r10 := ty * axis.x - s * axis.z
  let r11 := c + ty * axis.y
  let r12 := ty * axis.z + s * axis.x
  let r20 := tz * axis.x + s * axis.y
  let r21 := tz * axis.y - s * axis.x
  let r22 := c + tz * axis.z
  { c0 := Vec4R.add (Vec4R.add (Vec4R.scale r00 m.c0) (Vec4R.scale r01 m.c1)) (Vec4R.scale r02 m.c2),
    c1 := Vec4R.add (Vec4R.add (Vec4R.scale r10 m.c0) (Vec4R.scale r11 m.c1)) (Vec4R.scale r12 m.c2),
    c2 := Vec4R.add (Vec4R.add (Vec4R.scale r20 m.c0) (Vec4R.scale r21 m.c1)) (Vec4R.scale r22 m.c2),
    c3 := m.c3 }

/-- Componentwise difference of two vec3 values. -/
noncomputable def sub3 (u v : Vec3R) : Vec3R :=
  ⟨u.x - v.x, u.y - v.y, u.z - v.z⟩

/-- glm::lookAt (right-handed variant, matrix_transform.inl). -/
noncomputable def glmLookAt (eye center up : Vec3R) : Mat4R :=
  let f := glmNormalize3 (sub3 center eye)
  let s := glmNormalize3 (cross3 f up)
  let u := cross3 s f
  { c0 := ⟨s.x, u.x, -f.x, 0⟩,
    c1 := ⟨s.y, u.y, -f.y, 0⟩,
    c2 := ⟨s.z, u.z, -f.z, 0⟩,
    c3 := ⟨-(dot3 s eye), -(dot3 u eye), dot3 f eye, 1⟩ }

/-- glm::perspective under GLM_FORCE_DEPTH_ZERO_TO_ONE (the repository
defines it in VulkanEngine.cpp lines 18-19): right-handed, depth range
[0,1] (perspectiveRH_ZO in matrix_clip_space.inl). -/
noncomputable def glmPerspective (fovy aspect zNear zFar : ℝ) : Mat4R :=
  let tanHalfFovy := Real.tan (fovy / 2)
  { c0 := ⟨1 / (aspect * tanHalfFovy), 0, 0, 0⟩,
    c1 := ⟨0, 1 / tanHalfFovy, 0, 0⟩,
    c2 := ⟨0, 0, zFar / (zNear - zFar), -1⟩,
    c3 := ⟨0, 0, -(zFar * zNear) / (zFar - zNear), 0⟩ }

/-- UniformBufferObject: the three matrices written to a mapped uniform
buffer slot. -/
structure UniformBufferObject where
  model : Mat4R
  view : Mat4R
  proj : Mat4R

/-- UBO value computed by VulkanEngine::updateCubeRotation (VulkanEngine.cpp
lines 1418-1433) for a given elapsed time and the current swapchain extent:
rotate the identity about (0,1,0) by time * radians(45), a fixed lookAt
view, a perspective projection, then flip the sign of proj[1][1] for the
Vulkan clip space. -/
noncomputable def computeUbo (time : ℝ) (extent : Extent2D) : UniformBufferObject :=
  let model := glmRotate identityMat4 (time * glmRadians 45) ⟨0, 1, 0⟩
  let view := glmLookAt ⟨2, 2, 2⟩ ⟨0, 0, 0⟩ ⟨0, 1, 0⟩
  let proj0 := glmPerspective (glmRadians 45)
    ((extent.width : ℝ) / (extent.height : ℝ)) 0.1 10
  let proj := { proj0 with c1 := { proj0.c1 with y := proj0.c1.y * (-1) } }
  { model := model, view := view, proj := proj }

/-- Engine state touched by VulkanEngine::updateCubeRotation: the frame
cursor, the current swapchain extent, the vector of mapped uniform-buffer
pointers (true = non-null) and the contents of the mapped slots. -/
structure UboWriteState where
  currentFrame : Nat
  swapChainExtent : Extent2D
  uniformBuffersMapped : List Bool
  uboMemory : List UniformBufferObject

/-- VulkanEngine::updateCubeRotation (VulkanEngine.cpp lines 1418-1442):
compute the UBO, then memcpy it into the mapped slot of the current frame
only when uniformBuffersMapped.size() > currentFrame and the stored pointer
is non-null; otherwise log an error and return with nothing changed. -/
noncomputable def updateCubeRotation (s : UboWriteState) (time : ℝ) : UboWriteState :=
  let ubo := computeUbo time s.swapChainExtent
  if s.currentFrame < s.uniformBuffersMapped.length ∧
      s.uniformBuffersMapped.getD s.currentFrame false = true then
    { s with uboMemory := s.uboMemory.set s.currentFrame ubo }
  else
    s

/-- Canonical rotation about the vertical (Y) axis by a given angle, stated
from the specification wording (a pure rotation about the vertical axis):
maps the x basis vector to (cos a, 0, -sin a), fixes y, maps z to
(sin a, 0, cos a); written in glm column layout. -/
noncomputable def specRotationY (a : ℝ) : Mat4R :=
  { c0 := ⟨Real.cos a, 0, -Real.sin a, 0⟩,
    c1 := ⟨0, 1, 0, 0⟩,
    c2 := ⟨Real.sin a, 0, Real.cos a, 0⟩,
    c3 := ⟨0, 0, 0, 1⟩ }

/-- Decoded heightmap image as produced by stbi_load: dimensions, channel
count and the raw byte data (each entry a value in 0..255). -/
structure Heightmap where
  width : Nat
  height : Nat
  channels : Nat
  data : List Nat
deriving Repr

/-- TerrainLoader getHeight (TerrainLoader.cpp lines 18-29): clamp the
integer coordinates into the image, read the first channel of the pixel and
normalize to [0,1]. Out-of-range reads of the data list yield 0. -/
noncomputable def getHeight (x z : Int) (width height : Nat) (data : List Nat)
    (channels : Nat) : ℝ :=
  let xc := max 0 (min x ((width : Int) - 1))
  let zc := max 0 (min z ((height : Int) - 1))
  let index := (zc * (width : Int) + xc) * (channels : Int)
  let pixelValue := data.getD index.toNat 0
  (pixelValue : ℝ) / 255

/-- TerrainLoader calculateNormal (TerrainLoader.cpp lines 32-55): finite
differences of the scaled neighbour heights, normalized. -/
noncomputable def calculateNormal (x z : Int) (width height : Nat)
    (scaleXY scaleY : ℝ) (data : List Nat) (channels : Nat) : Vec3R :=
  let hl := getHeight (x - 1) z width height data channels * scaleY
  let hr := getHeight (x + 1) z width height data channels * scaleY
  let hd := getHeight x (z - 1) width height data channels * scaleY
  let hu := getHeight x (z + 1) width height data channels * scaleY
  glmNormalize3 ⟨scaleXY * (hl - hr), 2 * scaleXY, scaleXY * (hd - hu)⟩

/-- TerrainVertex (Terrain.h): position, normal and texture coordinates. -/
structure TerrainVertex where
  pos : Vec3R
  normal : Vec3R
  texCoord : Vec2R

/-- Vertex pushed by the vertex-generation loop of LoadFromHeightmap for
grid cell (x, z) (TerrainLoader.cpp lines 90-109). -/
noncomputable def terrainVertexAt (hm : Heightmap) (scaleXY scaleY : ℝ)
    (x z : Nat) : TerrainVertex :=
  { pos := ⟨(x : ℝ) * scaleXY,
      getHeight (x : Int) (z : Int) hm.width hm.height hm.data hm.channels * scaleY,
      (z : ℝ) * scaleXY⟩,
    normal := calculateNormal (x : Int) (z : Int) hm.width hm.height
      scaleXY scaleY hm.data hm.channels,
    texCoord := ⟨(x : ℝ) / ((hm.width : ℝ) - 1), (z : ℝ) / ((hm.height : ℝ) - 1)⟩ }

/-- Vertex list generated by LoadFromHeightmap: for z in 0..height-1, for x
in 0..width-1, one vertex per pixel. -/
noncomputable def terrainVertices (hm : Heightmap) (scaleXY scaleY : ℝ) :
    List TerrainVertex :=
  (List.range hm.height).flatMap (fun z =>
    (List.range hm.width).map (fun x => terrainVertexAt hm scaleXY scaleY x z))

/-- Index list generated by LoadFromHeightmap (TerrainLoader.cpp lines
115-134): for each interior quad, two triangles
(topLeft, bottomLeft, topRight) and (topRight, bottomLeft, bottomRight). -/
def terrainIndices (width height : Nat) : List Nat :=
  (List.range (height - 1)).flatMap (fun z =>
    (List.range (width - 1)).flatMap (fun x =>
      let topLeft := z * width + x
      let topRight := topLeft + 1
      let bottomLeft := (z + 1) * width + x
      let bottomRight := bottomLeft + 1
      [topLeft, bottomLeft, topRight, topRight, bottomLeft, bottomRight]))

/-- TerrainLoader::LoadFromHeightmap (TerrainLoader.cpp lines 57-144). The
argument models the result of stbi_load: none when decoding fails (the
function returns false), some image when it succeeds, in which case the
vertex and index lists are generated and true is returned. -/
noncomputable def LoadFromHeightmap (decoded : Option Heightmap)
    (scaleXY scaleY : ℝ) : Option (List TerrainVertex × List Nat) :=
  match decoded with
  | none => none
  | some hm => some (terrainVertices hm scaleXY scaleY, terrainIndices hm.width hm.height)

/-- Helper: std::clamp keeps a positive value positive whenever the upper
bound is positive. -/
theorem cppClamp_pos {v lo hi : Nat} (hv : 0 < v) (hhi : 0 < hi) :
    0 < cppClamp v lo hi := by
  unfold cppClamp
  split_ifs <;> omega

/-- C2 (amended): extent selection returns the capabilities' currentExtent
whenever its width is not the uint32 sentinel; otherwise it clamps the
drawable size componentwise into [minImageExtent, maxImageExtent]; and for
positive drawable sizes the result is never (0,0) provided the
capabilities are non-degenerate (a defined currentExtent has positive
width and height, and maxImageExtent has positive width and height). -/
theorem chooseSwapExtent_spec (capabilities : VkSurfaceCapabilitiesKHR)
    (drawable : Extent2D) :
    (capabilities.currentExtent.width ≠ UINT32_MAX →
      chooseSwapExtent capabilities drawable = capabilities.currentExtent) ∧
    (capabilities.currentExtent.width = UINT32_MAX →
      chooseSwapExtent capabilities drawable =
        { width := cppClamp drawable.width capabilities.minImageExtent.width
            capabilities.maxImageExtent.width,
          height := cppClamp drawable.height capabilities.minImageExtent.height
            capabilities.maxImageExtent.height }) ∧
    ((capabilities.currentExtent.width ≠ UINT32_MAX →
        0 < capabilities.currentExtent.width ∧ 0 < capabilities.currentExtent.height) →
      0 < capabilities.maxImageExtent.width →
      0 < capabilities.maxImageExtent.height →
      0 < drawable.width → 0 < drawable.height →
      chooseSwapExtent capabilities drawable ≠ { width := 0, height := 0 }) := by
  by_cases hsent : capabilities.currentExtent.width ≠ UINT32_MAX
  · refine ⟨fun _ => ?_, fun h => absurd h hsent, fun hcur _ _ _ _ => ?_⟩
    · simp [chooseSwapExtent, hsent]
    · have hpos := hcur hsent
      simp only [chooseSwapExtent, if_pos hsent]
      intro hzero
      rw [hzero] at hpos
      simp at hpos
  · push_neg at hsent
    refine ⟨fun h => absurd hsent h, fun _ => ?_, fun _ hmw hmh hdw hdh => ?_⟩
    · simp [chooseSwapExtent, hsent]
    · have h1 : 0 < cppClamp drawable.width capabilities.minImageExtent.width
          capabilities.maxImageExtent.width := cppClamp_pos hdw hmw
      simp only [chooseSwapExtent, hsent, ne_eq, not_true_eq_false, if_false]
      intro hzero
      have := congrArg Extent2D.width hzero
      simp at this
      omega

/-- Capability report refuting the unconditional never-(0,0) part of claim
C2: a defined currentExtent of (0,0), as a minimized window can report. -/
def c2Caps : VkSurfaceCapabilitiesKHR :=
  { minImageCount := 1, maxImageCount := 0,
    currentExtent := { width := 0, height := 0 },
    minImageExtent := { width := 1, height := 1 },
    maxImageExtent := { width := 4096, height := 4096 } }

/-- C2 counterexample: with a defined (non-sentinel) currentExtent of
(0,0), chooseSwapExtent returns (0,0) even though the drawable reports the
positive size 800 x 600. -/
theorem chooseSwapExtent_zero_counterexample :
    0 < (800 : Nat) ∧ 0 < (600 : Nat) ∧
    chooseSwapExtent c2Caps { width := 800, height := 600 } =
      { width := 0, height := 0 } := by
  decide

/-- C2 witness: instantiation of chooseSwapExtent_spec at a sentinel
capability report and the drawable size 800 x 600. -/
theorem chooseSwapExtent_spec_witness :
    (let caps : VkSurfaceCapabilitiesKHR :=
      { minImageCount := 1, maxImageCount := 0,
        currentExtent := { width := UINT32_MAX, height := 600 },
        minImageExtent := { width := 1, height := 1 },
        maxImageExtent := { width := 4096, height := 4096 } }
     let drawable : Extent2D := { width := 800, height := 600 }
     caps.currentExtent.width = UINT32_MAX ∧
     chooseSwapExtent caps drawable =
       { width := cppClamp drawable.width caps.minImageExtent.width caps.maxImageExtent.width,
         height := cppClamp drawable.height caps.minImageExtent.height caps.maxImageExtent.height } ∧
     chooseSwapExtent caps drawable ≠ { width := 0, height := 0 }) := by
  refine ⟨rfl, ?_, ?_⟩
  · exact (chooseSwapExtent_spec _ _).2.1 rfl
  · exact (chooseSwapExtent_spec _ _).2.2 (fun h => absurd rfl h) (by decide) (by decide)
      (by decide) (by decide)

/-- C8 (amended): as long as minImageCount + 1 does not overflow uint32,
the requested swapchain image count is minImageCount + 1, clamped down to
maxImageCount when that bound is nonzero and exceeded. -/
theorem swapImageCount_spec (capabilities : VkSurfaceCapabilitiesKHR)
    (hnof : capabilities.minImageCount + 1 < 4294967296) :
    (capabilities.maxImageCount = 0 ∨
        capabilities.minImageCount + 1 ≤ capabilities.maxImageCount →
      swapImageCountRequest capabilities = capabilities.minImageCount + 1) ∧
    (0 < capabilities.maxImageCount ∧
        capabilities.maxImageCount < capabilities.minImageCount + 1 →
      swapImageCountRequest capabilities = capabilities.maxImageCount) := by
  unfold swapImageCountRequest
  rw [Nat.mod_eq_of_lt hnof]
  constructor
  · intro h
    rw [if_neg (by omega)]
  · intro h
    rw [if_pos h]

/-- Capability report refuting claim C8 as stated: minImageCount at the
uint32 maximum makes minImageCount + 1 wrap to 0, so the requested count is
0 rather than the claimed clamp to maxImageCount = 5. -/
def c8Caps : VkSurfaceCapabilitiesKHR :=
  { minImageCount := 4294967295, maxImageCount := 5,
    currentExtent := { width := 800, height := 600 },
    minImageExtent := { width := 1, height := 1 },
    maxImageExtent := { width := 4096, height := 4096 } }

/-- C8 counterexample: for c8Caps the clamp condition of the claim applies
(maxImageCount nonzero and exceeded by minImageCount + 1), yet the code
requests neither minImageCount + 1 nor maxImageCount: uint32 wrap-around
makes it request 0. -/
theorem swapImageCount_overflow_counterexample :
    0 < c8Caps.maxImageCount ∧
    c8Caps.maxImageCount < c8Caps.minImageCount + 1 ∧
    swapImageCountRequest c8Caps ≠ c8Caps.minImageCount + 1 ∧
    swapImageCountRequest c8Caps ≠ c8Caps.maxImageCount ∧
    swapImageCountRequest c8Caps = 0 := by
  refine ⟨by decide, by decide, by decide, by decide, by decide⟩

/-- C1 (amended): the frame cursor stays in [0, N) with N = 2, advances by
exactly 1 mod N whenever drawFrame completes its submit and presentation
without throwing (outcome ok), and does not advance when the frame is
aborted because the acquire reported OUT_OF_DATE. -/
theorem drawFrame_cursor_spec (s : FrameState) (env : DrawEnv)
    (h : s.currentFrame < MAX_FRAMES_IN_FLIGHT) :
    (drawNextState s env).currentFrame < MAX_FRAMES_IN_FLIGHT ∧
    (drawOutcome s env = DrawOutcome.ok →
      (drawNextState s env).currentFrame =
        (s.currentFrame + 1) % MAX_FRAMES_IN_FLIGHT) ∧
    (env.acquireResult = VkResult.errorOutOfDateKHR →
      (drawNextState s env).currentFrame = s.currentFrame) := by
  simp only [drawNextState, drawOutcome, drawFrame, MAX_FRAMES_IN_FLIGHT] at *
  split_ifs with h1 h2 h3 h4 h5 <;> simp_all <;> omega

/-- Engine state used by the C1 theorems: cursor at slot 0, no pending
resize. -/
def c1State : FrameState :=
  { currentFrame := 0, framebufferResized := false, swapchainGeneration := 0 }

/-- Call results refuting claim C1 as stated: acquire and submit succeed
but presentation fails with a fatal error code (for example
VK_ERROR_DEVICE_LOST = -4). -/
def c1Env : DrawEnv :=
  { acquireResult := VkResult.success, acquireImageIndex := 0,
    submitResult := VkResult.success, presentResult := VkResult.otherError (-4) }

/-- C1 counterexample: the frame's vkQueueSubmit completes successfully,
yet the fatal present branch throws before line 1528 and the cursor does
not advance: it stays 0 instead of the claimed (0 + 1) mod 2 = 1. -/
theorem drawFrame_cursor_claim_counterexample :
    c1Env.submitResult = VkResult.success ∧
    drawOutcome c1State c1Env = DrawOutcome.fatal ∧
    (drawNextState c1State c1Env).currentFrame = c1State.currentFrame ∧
    (c1State.currentFrame + 1) % MAX_FRAMES_IN_FLIGHT ≠ c1State.currentFrame := by
  refine ⟨by decide, by decide, by decide, by decide⟩

/-- Call results for the C1 witness: a fully successful frame. -/
def c1wEnv : DrawEnv :=
  { acquireResult := VkResult.success, acquireImageIndex := 1,
    submitResult := VkResult.success, presentResult := VkResult.success }

/-- C1 witness: instantiation of drawFrame_cursor_spec at slot 0 with a
fully successful frame. -/
theorem drawFrame_cursor_spec_witness :
    c1State.currentFrame < MAX_FRAMES_IN_FLIGHT ∧
    ((drawNextState c1State c1wEnv).currentFrame < MAX_FRAMES_IN_FLIGHT ∧
     (drawOutcome c1State c1wEnv = DrawOutcome.ok →
       (drawNextState c1State c1wEnv).currentFrame =
         (c1State.currentFrame + 1) % MAX_FRAMES_IN_FLIGHT) ∧
     (c1wEnv.acquireResult = VkResult.errorOutOfDateKHR →
       (drawNextState c1State c1wEnv).currentFrame = c1State.currentFrame)) :=
  ⟨by decide, drawFrame_cursor_spec c1State c1wEnv (by decide)⟩

/-- Helper: in a trace beginning waitFence, acquireImage, resetFence, every
occurrence of the resetFence event is preceded by the acquireImage event
(which sits at index 1). -/
theorem resetAfterAcquireIndex (cf : Nat) (r : VkResult) (rest : List FrameEvent) :
    ∀ i : Nat,
      (FrameEvent.waitFence cf :: FrameEvent.acquireImage cf r ::
        FrameEvent.resetFence cf :: rest)[i]? = some (FrameEvent.resetFence cf) →
      ∃ j : Nat, j < i ∧
        (FrameEvent.waitFence cf :: FrameEvent.acquireImage cf r ::
          FrameEvent.resetFence cf :: rest)[j]? =
          some (FrameEvent.acquireImage cf r) := by
  intro i hi
  rcases i with _ | _ | n
  · simp at hi
  · simp at hi
  · exact ⟨1, by omega, rfl⟩

/-- C3: in every drawFrame execution, the slot's fence-reset event occurs
exactly when the acquire returned success or suboptimal (in particular it
never occurs on the OUT_OF_DATE or fatal acquire paths), and whenever it
occurs, the acquire event precedes it in the trace. -/
theorem drawFrame_fence_reset_spec (s : FrameState) (env : DrawEnv) :
    (FrameEvent.resetFence s.currentFrame ∈ drawTrace s env ↔
      (env.acquireResult = VkResult.success ∨
       env.acquireResult = VkResult.suboptimalKHR)) ∧
    (∀ i : Nat,
      (drawTrace s env)[i]? = some (FrameEvent.resetFence s.currentFrame) →
      ∃ j : Nat, j < i ∧
        (drawTrace s env)[j]? =
          some (FrameEvent.acquireImage s.currentFrame env.acquireResult)) := by
  simp only [drawTrace, drawFrame]
  split_ifs with h1 h2 h3 h4 h5
  · constructor
    · simp [h1]
    · intro i hi
      rcases i with _ | _ | _ | n <;> simp at hi
  · constructor
    · constructor
      · intro hmem
        simp at hmem
      · intro hgood
        rcases hgood with hg | hg
        · exact absurd hg h2.1
        · exact absurd hg h2.2
    · intro i hi
      rcases i with _ | _ | n <;> simp at hi
  all_goals
    have hgood : env.acquireResult = VkResult.success ∨
        env.acquireResult = VkResult.suboptimalKHR := by
      by_cases hs : env.acquireResult = VkResult.success
      · exact Or.inl hs
      · right
        by_contra hb
        exact h2 ⟨hs, hb⟩
  all_goals constructor
  · simp [hgood]
  · exact fun i hi => resetAfterAcquireIndex s.currentFrame env.acquireResult _ i hi
  · simp [hgood]
  · exact fun i hi => resetAfterAcquireIndex s.currentFrame env.acquireResult _ i hi
  · simp [hgood]
  · exact fun i hi => resetAfterAcquireIndex s.currentFrame env.acquireResult _ i hi
  · simp [hgood]
  · exact fun i hi => resetAfterAcquireIndex s.currentFrame env.acquireResult _ i hi

/-- Call results for the C3 witness: an OUT_OF_DATE acquire. -/
def c3Env : DrawEnv :=
  { acquireResult := VkResult.errorOutOfDateKHR, acquireImageIndex := 0,
    submitResult := VkResult.success, presentResult := VkResult.success }

/-- C3 witness: instantiation of drawFrame_fence_reset_spec showing that on
a concrete OUT_OF_DATE acquire the fence reset event is absent from the
trace. -/
theorem drawFrame_fence_reset_spec_witness :
    FrameEvent.resetFence c1State.currentFrame ∉ drawTrace c1State c3Env :=
  fun hmem =>
    by simpa [c3Env] using (drawFrame_fence_reset_spec c1State c3Env).1.mp hmem

/-- C4: an OUT_OF_DATE acquire makes drawFrame trigger a swapchain rebuild
and abort the frame with the distinct recoverable SwapChainOutOfDateError
outcome, which the Application main loop absorbs without setting its quit
flag; any other non-success, non-suboptimal acquire result makes drawFrame
throw a fatal error, which sets the main loop's quit flag and so
terminates the render loop. -/
theorem drawFrame_error_classification (s : FrameState) (env : DrawEnv) (quit : Bool) :
    (env.acquireResult = VkResult.errorOutOfDateKHR →
      drawOutcome s env = DrawOutcome.swapChainOutOfDate ∧
      DrawOutcome.swapChainOutOfDate ≠ DrawOutcome.fatal ∧
      FrameEvent.recreateSwapchain ∈ drawTrace s env ∧
      (drawNextState s env).swapchainGeneration = s.swapchainGeneration + 1 ∧
      mainLoopQuitAfter quit (drawOutcome s env) = quit) ∧
    (env.acquireResult ≠ VkResult.success →
      env.acquireResult ≠ VkResult.suboptimalKHR →
      env.acquireResult ≠ VkResult.errorOutOfDateKHR →
      drawOutcome s env = DrawOutcome.fatal ∧
      mainLoopQuitAfter quit (drawOutcome s env) = true) := by
  constructor
  · intro h1
    simp [drawOutcome, drawTrace, drawNextState, drawFrame, h1, mainLoopQuitAfter]
  · intro hs hsub hood
    simp [drawOutcome, drawFrame, hood, hs, hsub, mainLoopQuitAfter]

/-- Call results for the fatal half of the C4 witness: a device-lost
acquire. -/
def c4Env : DrawEnv :=
  { acquireResult := VkResult.otherError (-4), acquireImageIndex := 0,
    submitResult := VkResult.success, presentResult := VkResult.success }

/-- C4 witness: instantiation of drawFrame_error_classification at a
concrete OUT_OF_DATE acquire (loop keeps running) and at a concrete fatal
acquire (loop quits). -/
theorem drawFrame_error_classification_witness :
    (drawOutcome c1State c3Env = DrawOutcome.swapChainOutOfDate ∧
     DrawOutcome.swapChainOutOfDate ≠ DrawOutcome.fatal ∧
     FrameEvent.recreateSwapchain ∈ drawTrace c1State c3Env ∧
     (drawNextState c1State c3Env).swapchainGeneration =
       c1State.swapchainGeneration + 1 ∧
     mainLoopQuitAfter false (drawOutcome c1State c3Env) = false) ∧
    (drawOutcome c1State c4Env = DrawOutcome.fatal ∧
     mainLoopQuitAfter false (drawOutcome c1State c4Env) = true) :=
  ⟨(drawFrame_error_classification c1State c3Env false).1 (by decide),
   (drawFrame_error_classification c1State c4Env false).2 (by decide) (by decide) (by decide)⟩

/-- C8 witness: instantiation of swapImageCount_spec at reports with
minImageCount 2 and maxImageCount 0 and 2 respectively. -/
theorem swapImageCount_spec_witness :
    (let capsFree : VkSurfaceCapabilitiesKHR :=
      { minImageCount := 2, maxImageCount := 0,
        currentExtent := { width := 800, height := 600 },
        minImageExtent := { width := 1, height := 1 },
        maxImageExtent := { width := 4096, height := 4096 } }
     let capsTight : VkSurfaceCapabilitiesKHR :=
      { minImageCount := 2, maxImageCount := 2,
        currentExtent := { width := 800, height := 600 },
        minImageExtent := { width := 1, height := 1 },
        maxImageExtent := { width := 4096, height := 4096 } }
     capsFree.minImageCount + 1 < 4294967296 ∧
     swapImageCountRequest capsFree = capsFree.minImageCount + 1 ∧
     swapImageCountRequest capsTight = capsTight.maxImageCount) := by
  refine ⟨by decide, ?_, ?_⟩
  · exact (swapImageCount_spec _ (by decide)).1 (Or.inl rfl)
  · exact (swapImageCount_spec _ (by decide)).2 (by decide)

/-- C5: swapchain rebuild is idempotent. From any engine state, when the
drawable size is nonzero (so the minimized-stall loop exits), one
recreateSwapChain call yields a state from which a second call with no
intervening frame reproduces exactly the same state. -/
theorem recreateSwapChain_idempotent (env : VulkanSurfaceEnv)
    (s : Option SwapchainConfig)
    (hw : env.drawableSize.width ≠ 0) (hh : env.drawableSize.height ≠ 0) :
    ∃ s1, recreateSwapChain env s = some s1 ∧ recreateSwapChain env s1 = some s1 := by
  refine ⟨some (buildSwapchainConfig env), ?_, ?_⟩ <;>
    simp [recreateSwapChain, cleanupSwapChain, hw, hh]

/-- Surface environment for the C5 witness: an 800 x 600 window. -/
def c5Env : VulkanSurfaceEnv :=
  { capabilities :=
      { minImageCount := 2, maxImageCount := 8,
        currentExtent := { width := 800, height := 600 },
        minImageExtent := { width := 1, height := 1 },
        maxImageExtent := { width := 4096, height := 4096 } },
    formats := [{ format := 44, colorSpace := 0 }, { format := 50, colorSpace := 0 }],
    presentModes := [VkPresentModeKHR.fifo, VkPresentModeKHR.mailbox],
    drawableSize := { width := 800, height := 600 },
    actualImageCount := 3,
    graphicsFamily := 0, presentFamily := 0 }

/-- C5 witness: instantiation of recreateSwapChain_idempotent at c5Env
starting from the empty (cleaned-up) state. -/
theorem recreateSwapChain_idempotent_witness :
    c5Env.drawableSize.width ≠ 0 ∧ c5Env.drawableSize.height ≠ 0 ∧
    ∃ s1, recreateSwapChain c5Env none = some s1 ∧
      recreateSwapChain c5Env s1 = some s1 :=
  ⟨by decide, by decide,
   recreateSwapChain_idempotent c5Env none (by decide) (by decide)⟩

/-- C9: whenever the mapped-pointer vector is too short for the current
frame or holds a null pointer there, updateCubeRotation writes nothing and
raises nothing: it returns with the whole engine state unchanged. -/
theorem updateCubeRotation_unmapped_noop (s : UboWriteState) (time : ℝ)
    (h : ¬(s.currentFrame < s.uniformBuffersMapped.length ∧
        s.uniformBuffersMapped.getD s.currentFrame false = true)) :
    updateCubeRotation s time = s := by
  unfold updateCubeRotation
  rw [if_neg h]

/-- Engine state for the C9 witness: cursor at slot 1 while only slot 0 has
a mapped pointer, and that slot 1 pointer is absent. -/
noncomputable def c9State : UboWriteState :=
  { currentFrame := 1,
    swapChainExtent := { width := 800, height := 600 },
    uniformBuffersMapped := [true],
    uboMemory := [computeUbo 0 { width := 800, height := 600 }] }

/-- C9 witness: instantiation of updateCubeRotation_unmapped_noop at
c9State and elapsed time 1. -/
theorem updateCubeRotation_unmapped_noop_witness :
    ¬(c9State.currentFrame < c9State.uniformBuffersMapped.length ∧
        c9State.uniformBuffersMapped.getD c9State.currentFrame false = true) ∧
    updateCubeRotation c9State 1 = c9State :=
  ⟨by decide, updateCubeRotation_unmapped_noop c9State 1 (by decide)⟩

/-- Helper: glm normalize of the unit Y axis is the unit Y axis. -/
theorem glmNormalize3_yAxis : glmNormalize3 ⟨0, 1, 0⟩ = ⟨0, 1, 0⟩ := by
  simp only [glmNormalize3, dot3, Vec3R.mk.injEq]
  norm_num

/-- Helper: glm rotate of the identity about the Y axis is exactly the
canonical Y-axis rotation matrix. -/
theorem glmRotate_y_identity (u : ℝ) :
    glmRotate identityMat4 u ⟨0, 1, 0⟩ = specRotationY u := by
  unfold glmRotate
  rw [glmNormalize3_yAxis]
  simp only [identityMat4, specRotationY, Vec4R.scale, Vec4R.add,
    Mat4R.mk.injEq, Vec4R.mk.injEq]
  norm_num

/-- C6: for every elapsed time the model matrix computed by
updateCubeRotation is the pure rotation about the vertical (Y) axis by the
angle time * 45 degrees (in radians, time * radians(45)) applied to the
identity, and at time 0 it is the identity matrix. -/
theorem updateCubeRotation_model_rotation (t : ℝ) (extent : Extent2D) :
    (computeUbo t extent).model = specRotationY (t * glmRadians 45) ∧
    (computeUbo 0 extent).model = identityMat4 := by
  constructor
  · show glmRotate identityMat4 (t * glmRadians 45) ⟨0, 1, 0⟩ = _
    exact glmRotate_y_identity _
  · show glmRotate identityMat4 (0 * glmRadians 45) ⟨0, 1, 0⟩ = _
    rw [glmRotate_y_identity, zero_mul]
    simp [specRotationY, identityMat4, Mat4R.mk.injEq, Vec4R.mk.injEq]

/-- C7: for every swapchain extent with positive width and height (hence
every positive aspect ratio), the projection matrix written by
updateCubeRotation has entry [1][1] equal to the negation of entry [1][1]
of the canonical glm perspective matrix with the same parameters: the
Vulkan clip-space Y flip is always present. -/
theorem updateCubeRotation_proj_sign_flip (t : ℝ) (w h : Nat)
    (hw : 0 < w) (hh : 0 < h) :
    (computeUbo t { width := w, height := h }).proj.c1.y =
      -((glmPerspective (glmRadians 45) ((w : ℝ) / (h : ℝ)) 0.1 10).c1.y) := by
  have hdef : (computeUbo t { width := w, height := h }).proj.c1.y =
      (glmPerspective (glmRadians 45) ((w : ℝ) / (h : ℝ)) 0.1 10).c1.y * (-1) := rfl
  rw [hdef]
  ring

/-- C7 witness: instantiation of updateCubeRotation_proj_sign_flip at the
startup extent 800 x 600 and time 0. -/
theorem updateCubeRotation_proj_sign_flip_witness :
    0 < (800 : Nat) ∧ 0 < (600 : Nat) ∧
    (computeUbo 0 { width := 800, height := 600 }).proj.c1.y =
      -((glmPerspective (glmRadians 45) ((800 : ℝ) / (600 : ℝ)) 0.1 10).c1.y) :=
  ⟨by decide, by decide,
   by exact_mod_cast updateCubeRotation_proj_sign_flip 0 800 600 (by decide) (by decide)⟩

/-- Helper: length of a flatMap whose blocks all have the same length. -/
theorem length_flatMap_const {α β : Type} (l : List α) (f : α → List β) (n : Nat)
    (hf : ∀ a, (f a).length = n) : (l.flatMap f).length = l.length * n := by
  induction l with
  | nil => simp
  | cons a t ih =>
    simp only [List.flatMap_cons, List.length_append, List.length_cons, hf, ih]
    ring

/-- Helper: every index generated by the terrain index loop addresses one
of the width * height generated vertices. -/
theorem terrainIndices_lt (width height : Nat) :
    ∀ i ∈ terrainIndices width height, i < width * height := by
  intro i hi
  unfold terrainIndices at hi
  simp only [List.mem_flatMap, List.mem_range, List.mem_cons,
    List.not_mem_nil, or_false] at hi
  obtain ⟨z, hz, x, hx, hmem⟩ := hi
  have hzw : z * width ≤ (z + 1) * width := Nat.mul_le_mul_right width (by omega)
  have hbound : (z + 1) * width + x + 1 < width * height := by
    have h2 : z + 2 ≤ height := by omega
    have h3 : x + 2 ≤ width := by omega
    calc (z + 1) * width + x + 1 < (z + 1) * width + width := by omega
    _ = (z + 2) * width := by ring
    _ ≤ height * width := Nat.mul_le_mul_right width h2
    _ = width * height := Nat.mul_comm height width
  have hle : i ≤ (z + 1) * width + x + 1 := by
    rcases hmem with rfl | rfl | rfl | rfl | rfl | rfl <;> linarith
  linarith

/-- C10: for every successfully decoded heightmap with width and height at
least 1, LoadFromHeightmap succeeds and produces exactly width * height
vertices and exactly 6 * (width - 1) * (height - 1) indices, every one of
which refers to an existing vertex. -/
theorem loadFromHeightmap_mesh_spec (hm : Heightmap) (scaleXY scaleY : ℝ)
    (hw : 1 ≤ hm.width) (hh : 1 ≤ hm.height) :
    ∃ verts inds,
      LoadFromHeightmap (some hm) scaleXY scaleY = some (verts, inds) ∧
      verts.length = hm.width * hm.height ∧
      inds.length = 6 * (hm.width - 1) * (hm.height - 1) ∧
      ∀ i ∈ inds, i < hm.width * hm.height := by
  refine ⟨terrainVertices hm scaleXY scaleY, terrainIndices hm.width hm.height,
    rfl, ?_, ?_, terrainIndices_lt hm.width hm.height⟩
  · unfold terrainVertices
    rw [length_flatMap_const _ _ hm.width (fun z => by simp)]
    simp [Nat.mul_comm]
  · unfold terrainIndices
    have hinner : ∀ z, ((List.range (hm.width - 1)).flatMap (fun x =>
        let topLeft := z * hm.width + x
        let topRight := topLeft + 1
        let bottomLeft := (z + 1) * hm.width + x
        let bottomRight := bottomLeft + 1
        [topLeft, bottomLeft, topRight, topRight, bottomLeft, bottomRight])).length =
        (hm.width - 1) * 6 := by
      intro z
      rw [length_flatMap_const _ _ 6 (fun x => by simp)]
      simp
    rw [length_flatMap_const _ _ ((hm.width - 1) * 6) hinner]
    simp only [List.length_range]
    ring

/-- Decoded 3 x 2 single-channel heightmap for the C10 witness. -/
def c10Heightmap : Heightmap :=
  { width := 3, height := 2, channels := 1, data := [0, 255, 128, 64, 32, 16] }

/-- C10 witness: instantiation of loadFromHeightmap_mesh_spec at a concrete
3 x 2 heightmap with unit scales. -/
theorem loadFromHeightmap_mesh_spec_witness :
    1 ≤ c10Heightmap.width ∧ 1 ≤ c10Heightmap.height ∧
    ∃ verts inds,
      LoadFromHeightmap (some c10Heightmap) 1 1 = some (verts, inds) ∧
      verts.length = c10Heightmap.width * c10Heightmap.height ∧
      inds.length = 6 * (c10Heightmap.width - 1) * (c10Heightmap.height - 1) ∧
      ∀ i ∈ inds, i < c10Heightmap.width * c10Heightmap.height :=
  ⟨by decide, by decide,
   loadFromHeightmap_mesh_spec c10Heightmap 1 1 (by decide) (by decide)⟩

end VkGameProjectOne
